import Mathlib

/-!
Verification of the timed response-capture coordinator of the
lingoquesto-placement repository.

The development shallowly embeds three source units:

* the global countdown hook (useGlobalTimer): phases, tick handler,
  transitionPhase with its in-progress guard, startTimer validation,
  skipThinking, stopTimer, clearTimer;
* the audio recorder component (AudioRecorder.jsx): recording states,
  the phase effect, handleTimeExpiry, handleManualSubmit,
  performSubmission with the 500 ms delayed continuation, resetComponent
  and the question-change effect;
* the exam interface (ExamInterface.jsx): submitResponseInternal and its
  isProcessing guard around the external submit collaborator.

React state setters are not synchronous: a value obtained from useState and
read inside a closure is the value captured at the render that created the
closure, while refs (useRef) are read and written synchronously.  The
embedding therefore keeps, for the timer, both the synchronously readable
phase (phaseRef.current, field phase) and the value most recently passed to
setPhase (field pendingPhase); a commit step propagates the pending value,
modelling the re-render plus the effect that syncs phaseRef, together with
the 100 ms timeout that clears the in-progress flag.  Both complete well
before the next 1000 ms interval tick.  Where a closure reads a captured
state value, the embedding passes that captured value explicitly as an
argument.
-/

/-- Timer phases of useGlobalTimer.  The hook starts in waiting. -/
inductive Phase : Type
  | waiting
  | thinking
  | responding
  | expired
  | stopped
deriving DecidableEq

/-- Callback notifications emitted by the timer: onPhaseChange,
onThinkingComplete and onTimeExpired. -/
inductive TEvent : Type
  | phaseChange (p : Phase)
  | thinkingComplete
  | timeExpired
deriving DecidableEq

/-- The configuration stored in configRef by startTimer.  Times are in
seconds; JavaScript falsy or nonpositive values are modelled as
nonpositive integers. -/
structure Config : Type where
  thinkTime : Int
  responseTime : Int
deriving DecidableEq

/-- State of the useGlobalTimer hook.  phase is the synchronously readable
phaseRef.current; pendingPhase is the latest value passed to setPhase and
becomes visible to phaseRef after the next commit.  events is the log of
callback notifications the timer has emitted, in order. -/
structure TimerState : Type where
  timeLeft : Int
  phase : Phase
  pendingPhase : Phase
  isActive : Bool
  isProcessing : Bool
  intervalSet : Bool
  config : Option Config
  events : List TEvent
deriving DecidableEq

/-- configRef.current?.responseTime with JavaScript optional chaining:
a missing config reads as a value that is not greater than zero. -/
def cfgRT (s : TimerState) : Int :=
  match s.config with
  | some c => c.responseTime
  | none => 0

/-- The callbacks transitionPhase invokes on entering a phase: always
onPhaseChange, then onThinkingComplete when entering responding, or
onTimeExpired when entering expired. -/
def phaseEvents : Phase → List TEvent
  | Phase.responding => [TEvent.phaseChange Phase.responding, TEvent.thinkingComplete]
  | Phase.expired => [TEvent.phaseChange Phase.expired, TEvent.timeExpired]
  | p => [TEvent.phaseChange p]

/-- transitionPhase, parameterised by the host reaction cb to the emitted
callbacks.  If the in-progress flag is set the request is dropped.
Otherwise the flag is set, setPhase and setTimeLeft are issued, the
callback notifications are emitted, and the host callbacks run on the
resulting state (they may call back into the timer). -/
def transitionPhaseCb (cb : TimerState → TimerState) (newPhase : Phase)
    (newTime : Int) (s : TimerState) : TimerState :=
  if s.isProcessing then s
  else
    cb { s with
          isProcessing := true
          pendingPhase := newPhase
          timeLeft := newTime
          events := s.events ++ phaseEvents newPhase }

/-- transitionPhase when the host callbacks do not act back on the timer
state, which is the case for the claims about the timer in isolation. -/
def transitionPhase (newPhase : Phase) (newTime : Int) (s : TimerState) : TimerState :=
  transitionPhaseCb (fun x => x) newPhase newTime s

/-- clearTimer: clears the interval, sets isActive false and resets the
in-progress flag. -/
def clearTimer (s : TimerState) : TimerState :=
  { s with intervalSet := false, isActive := false, isProcessing := false }

/-- stopTimer: clearTimer, then a transition to stopped unless phaseRef
already reads stopped or expired. -/
def stopTimer (s : TimerState) : TimerState :=
  let s1 := clearTimer s
  if s1.phase ≠ Phase.stopped ∧ s1.phase ≠ Phase.expired then
    transitionPhase Phase.stopped 0 s1
  else s1

/-- startTimer: rejects (returning with only a console error) exactly when
both thinkTime and responseTime are missing or nonpositive; otherwise
clears any prior countdown, stores the config, enters thinking when
thinkTime is positive and responding otherwise, and starts the interval. -/
def startTimer (cfg : Config) (s : TimerState) : TimerState :=
  if cfg.thinkTime ≤ 0 ∧ cfg.responseTime ≤ 0 then s
  else
    let s1 := clearTimer s
    let s2 := { s1 with config := some cfg, isProcessing := false }
    let s3 :=
      if 0 < cfg.thinkTime then
        transitionPhase Phase.thinking cfg.thinkTime s2
      else
        transitionPhase Phase.responding cfg.responseTime s2
    { s3 with isActive := true, intervalSet := true }

/-- One firing of the interval callback, parameterised by the host
reaction cb threaded to any transition it performs.  The tick fires only
while the interval exists.  The handler decrements first and compares to
zero second; on reaching zero in thinking with a positive responseTime it
transitions to responding and the updater returns responseTime, on
reaching zero in responding it clears the interval and transitions to
expired, and otherwise the decremented value simply becomes the new
timeLeft, even below zero. -/
def tickCb (cb : TimerState → TimerState) (s : TimerState) : TimerState :=
  if s.intervalSet = false then s
  else
    let newTime := s.timeLeft - 1
    if newTime ≤ 0 then
      if s.phase = Phase.thinking ∧ 0 < cfgRT s then
        let s1 := transitionPhaseCb cb Phase.responding (cfgRT s) s
        { s1 with timeLeft := cfgRT s }
      else if s.phase = Phase.responding then
        let s1 := transitionPhaseCb cb Phase.expired 0
          { s with intervalSet := false, isActive := false }
        { s1 with timeLeft := 0 }
      else { s with timeLeft := newTime }
    else { s with timeLeft := newTime }

/-- A tick whose transitions do not act back on the timer state. -/
def tickRaw (s : TimerState) : TimerState :=
  tickCb (fun x => x) s

/-- skipThinking: performs the thinking-to-responding transition with the
full responseTime when phaseRef reads thinking and the configured
responseTime is positive; otherwise does nothing. -/
def skipThinking (s : TimerState) : TimerState :=
  if s.phase = Phase.thinking ∧ 0 < cfgRT s then
    transitionPhase Phase.responding (cfgRT s) s
  else s

/-- The commit between interval ticks: the re-render and the effect sync
phaseRef to the latest setPhase value, and the 100 ms timeout scheduled by
transitionPhase clears the in-progress flag.  Both happen well before the
next 1000 ms tick. -/
def commitT (s : TimerState) : TimerState :=
  { s with phase := s.pendingPhase, isProcessing := false }

/-- One full scheduler step: the commit following the previous work, then
the next interval tick. -/
def stepT (s : TimerState) : TimerState :=
  tickRaw (commitT s)

/-- k scheduler steps. -/
def stepN : Nat → TimerState → TimerState
  | 0, s => s
  | k + 1, s => stepN k (stepT s)

/-- The hook state before any startTimer call. -/
def initTimer : TimerState :=
  { timeLeft := 0
    phase := Phase.waiting
    pendingPhase := Phase.waiting
    isActive := false
    isProcessing := false
    intervalSet := false
    config := none
    events := [] }

/-- The timer configuration built from natural think and response times. -/
def cfgMN (M N : Nat) : Config :=
  { thinkTime := (M : Int), responseTime := (N : Int) }

/-- State after k ticks of a timer started with think time M and response
time N. -/
def natRun (M N : Nat) (k : Nat) : TimerState :=
  stepN k (startTimer (cfgMN M N) initTimer)

/-- Number of occurrences of an emitted notification in a log. -/
def countTE (e : TEvent) (l : List TEvent) : Nat :=
  (l.filter (fun x => x = e)).length

/-- A committed timer state counting down in thinking. -/
def thinkingAt (cfg : Config) (t : Int) (evs : List TEvent) : TimerState :=
  { timeLeft := t
    phase := Phase.thinking
    pendingPhase := Phase.thinking
    isActive := true
    isProcessing := false
    intervalSet := true
    config := some cfg
    events := evs }

/-- A committed timer state counting down in responding. -/
def respondingAt (cfg : Config) (t : Int) (evs : List TEvent) : TimerState :=
  { timeLeft := t
    phase := Phase.responding
    pendingPhase := Phase.responding
    isActive := true
    isProcessing := false
    intervalSet := true
    config := some cfg
    events := evs }

/-- The uncommitted state right after the thinking-to-responding
transition performed by a tick. -/
def respondingEntry (cfg : Config) (evs : List TEvent) : TimerState :=
  { timeLeft := cfg.responseTime
    phase := Phase.thinking
    pendingPhase := Phase.responding
    isActive := true
    isProcessing := true
    intervalSet := true
    config := some cfg
    events := evs ++ phaseEvents Phase.responding }

/-- The uncommitted state right after the responding-to-expired transition
performed by a tick. -/
def expiredEntry (cfg : Config) (evs : List TEvent) : TimerState :=
  { timeLeft := 0
    phase := Phase.responding
    pendingPhase := Phase.expired
    isActive := false
    isProcessing := true
    intervalSet := false
    config := some cfg
    events := evs ++ phaseEvents Phase.expired }

/-- The committed terminal expired state. -/
def expiredDone (cfg : Config) (evs : List TEvent) : TimerState :=
  { timeLeft := 0
    phase := Phase.expired
    pendingPhase := Phase.expired
    isActive := false
    isProcessing := false
    intervalSet := false
    config := some cfg
    events := evs ++ phaseEvents Phase.expired }

/-!
AudioRecorder.jsx.  The component owns the recording state, the blob, the
chunks ref, the media recorder and its stream, the submittingRef guard and
the automatic-start flag.  It drives the shared timer of the context
(modelled here only through the timerRunning flag, the full timer model is
above) and calls the onSubmit prop, which leads to the exam interface
submission path.  Submissions are logged as pairs of the question id
captured by the submitting closure and the blob handed to onSubmit; a
blob is a list of byte chunks, each a list of numbers.  The 500 ms
setTimeout continuations created by handleTimeExpiry and
handleManualSubmit are logged in pendingSubmits together with the
question id and audioBlob value their closures captured; the source never
stores the timeout id and never cancels it.
-/

/-- Recording states of AudioRecorder.jsx. -/
inductive RecState : Type
  | idle
  | recording
  | complete
  | submitting
deriving DecidableEq

/-- State of the AudioRecorder component together with the effects visible
to its collaborators.  recorderActive models mediaRecorderRef.current:
none when null, some true while its state reads recording, some false
once inactive.  deviceStarts counts successful getUserMedia acquisitions
followed by recorder.start.  submissions logs onSubmit invocations. -/
structure ARState : Type where
  questionId : Nat
  recordingState : RecState
  audioBlob : Option (List (List Nat))
  chunks : List (List Nat)
  recorderActive : Option Bool
  streamActive : Bool
  hasStartedRecording : Bool
  submittingFlag : Bool
  isPlaying : Bool
  timerRunning : Bool
  deviceStarts : Nat
  submissions : List (Nat × Option (List (List Nat)))
  pendingSubmits : List (Nat × Option (List (List Nat)))
deriving DecidableEq

/-- cleanupResources: stops a live recorder, stops the stream tracks and
nulls the recorder ref.  The chunks ref is not touched here. -/
def cleanupResources (s : ARState) : ARState :=
  { s with recorderActive := none, streamActive := false }

/-- resetComponent: cleanupResources, then the submittingRef, the
recording state, the blob, the playback flag, the automatic-start flag
and the chunks ref are all reset.  The 500 ms timeout continuations are
not cancelled: the source keeps no handle to them. -/
def resetComponent (s : ARState) : ARState :=
  { cleanupResources s with
      submittingFlag := false
      recordingState := RecState.idle
      audioBlob := none
      isPlaying := false
      hasStartedRecording := false
      chunks := [] }

/-- The questionId effect: on a new question id, resetComponent and then
startTimer on the shared timer context. -/
def questionChange (s : ARState) (newId : Nat) : ARState :=
  { resetComponent { s with questionId := newId } with timerRunning := true }

/-- startRecording when getUserMedia succeeds: a no-op while the captured
recording state reads recording; otherwise cleanupResources, a fresh
stream and chunk buffer, a new recorder whose onstart callback sets the
recording state. -/
def startRecording (s : ARState) : ARState :=
  if s.recordingState = RecState.recording then s
  else
    { cleanupResources s with
        chunks := []
        streamActive := true
        recorderActive := some true
        recordingState := RecState.recording
        deviceStarts := s.deviceStarts + 1 }

/-- startRecording when getUserMedia rejects: cleanupResources has already
run, the catch branch sets the recording state back to idle.  The chunk
buffer is reassigned only after a successful acquisition, so it is left
as it was. -/
def startRecordingFail (s : ARState) : ARState :=
  if s.recordingState = RecState.recording then s
  else { cleanupResources s with recordingState := RecState.idle }

/-- createAudioBlob: with an empty chunk buffer it returns immediately;
otherwise it builds the blob from the buffered chunks and stops the
stream tracks. -/
def createAudioBlob (s : ARState) : ARState :=
  if s.chunks = [] then s
  else { s with audioBlob := some s.chunks, streamActive := false }

/-- The recorder onstop callback: createAudioBlob, then the state flips to
complete unless the submittingRef is set. -/
def recorderOnStop (s : ARState) : ARState :=
  let s1 := createAudioBlob s
  if s1.submittingFlag then s1 else { s1 with recordingState := RecState.complete }

/-- performSubmission as executed by a particular closure: qid and
captured are the question id and audioBlob value the closure captured at
its creation render.  It stops the shared timer first, pauses playback,
falls back from the captured blob to a blob built from the current chunks
ref, or to none when nothing was buffered, and invokes onSubmit. -/
def performSubmissionWith (qid : Nat) (captured : Option (List (List Nat)))
    (s : ARState) : ARState :=
  let s1 := { s with timerRunning := false }
  let s2 := if s1.isPlaying then { s1 with isPlaying := false } else s1
  let blob :=
    match captured with
    | some b => some b
    | none => if s.chunks = [] then none else some s.chunks
  { s2 with submissions := s2.submissions ++ [(qid, blob)] }

/-- handleTimeExpiry: sets the submittingRef and the submitting state, and
then either stops a live recorder and schedules performSubmission 500 ms
later, or performs the submission at once.  The stopRecording call inside
goes through because its closure captured the recording state from before
the setRecordingState call of this handler. -/
def handleTimeExpiry (s : ARState) : ARState :=
  if s.recorderActive = some true then
    { s with
        submittingFlag := true
        recordingState := RecState.submitting
        recorderActive := some false
        pendingSubmits := s.pendingSubmits ++ [(s.questionId, s.audioBlob)] }
  else
    performSubmissionWith s.questionId s.audioBlob
      { s with submittingFlag := true, recordingState := RecState.submitting }

/-- handleManualSubmit: the source body is identical to handleTimeExpiry
apart from its log line. -/
def handleManualSubmit (s : ARState) : ARState :=
  if s.recorderActive = some true then
    { s with
        submittingFlag := true
        recordingState := RecState.submitting
        recorderActive := some false
        pendingSubmits := s.pendingSubmits ++ [(s.questionId, s.audioBlob)] }
  else
    performSubmissionWith s.questionId s.audioBlob
      { s with submittingFlag := true, recordingState := RecState.submitting }

/-- The oldest outstanding 500 ms timeout fires and runs performSubmission
with the question id and blob its closure captured. -/
def fireNextPendingSubmit (s : ARState) : ARState :=
  match s.pendingSubmits with
  | [] => s
  | (qid, blob) :: rest => performSubmissionWith qid blob { s with pendingSubmits := rest }

/-- The phase effect of AudioRecorder: on responding, when the automatic
start has not happened yet, it records that fact and calls startRecording;
on expired it calls handleTimeExpiry; on any other phase it does
nothing. -/
def phaseEffect (p : Phase) (s : ARState) : ARState :=
  if p = Phase.responding ∧ s.hasStartedRecording = false then
    startRecording { s with hasStartedRecording := true }
  else if p = Phase.expired then handleTimeExpiry s
  else s

/-- The component state right after mounting for a question: the mount
effect has reset the component and started the shared timer. -/
def arInit (qid : Nat) : ARState :=
  { questionId := qid
    recordingState := RecState.idle
    audioBlob := none
    chunks := []
    recorderActive := none
    streamActive := false
    hasStartedRecording := false
    submittingFlag := false
    isPlaying := false
    timerRunning := true
    deviceStarts := 0
    submissions := []
    pendingSubmits := [] }

/-- The phases announced by a timer notification log, in order. -/
def phasesOf (evs : List TEvent) : List Phase :=
  evs.filterMap (fun e =>
    match e with
    | TEvent.phaseChange p => some p
    | _ => none)

/-- The AudioRecorder state after the phase effect has processed, in
order, every phase change a timer with think time M and response time N
announces over its whole run, starting from a freshly mounted component
for question q and with every device operation succeeding. -/
def coordRun (M N q : Nat) : ARState :=
  (phasesOf (natRun M N (M + N)).events).foldl (fun s p => phaseEffect p s) (arInit q)

/-!
ExamInterface.jsx.  submitResponseInternal guards the call to the external
submit collaborator with the isProcessing state.  The guard is read from
the closure of the invocation, so the value checked is the one captured at
the render that created the running closure, not the committed value at
call time; the captured value is passed explicitly.  submitCalls counts
invocations of the external collaborator (the submit-response fetch).
-/

/-- Committed state of the exam interface around submission. -/
structure ExamS : Type where
  isProcessing : Bool
  submitCalls : Nat
  questionAdvances : Nat
deriving DecidableEq

/-- The synchronous prefix of submitResponseInternal, up to and including
the start of the network call: the guard checks the isProcessing value the
closure captured; when it passes, setIsProcessing(true) is issued (visible
to closures created at later renders) and the external collaborator is
invoked. -/
def submitResponseSync (captured : Bool) (s : ExamS) : ExamS :=
  if captured then s
  else { s with isProcessing := true, submitCalls := s.submitCalls + 1 }

/-- Completion of a successful delivery: the next question is installed
and the finally block issues setIsProcessing(false). -/
def submitResponseSuccess (s : ExamS) : ExamS :=
  { s with isProcessing := false, questionAdvances := s.questionAdvances + 1 }

/-- Completion of a failed delivery: the catch branch logs the error
without rethrowing, the question does not advance, and the finally block
issues setIsProcessing(false). -/
def submitResponseFailure (s : ExamS) : ExamS :=
  { s with isProcessing := false }

/-- The exam interface state while one question is displayed and no
submission is in flight. -/
def examInit : ExamS :=
  { isProcessing := false, submitCalls := 0, questionAdvances := 0 }

/-!
Closed forms for the timer run.  The states thinkingAt, respondingAt,
respondingEntry, expiredEntry and expiredDone describe the reachable
states of a started countdown; the lemmas below compute stepN on them.
-/

lemma stepN_add (a b : Nat) (s : TimerState) :
    stepN (a + b) s = stepN b (stepN a s) := by
  induction a generalizing s with
  | zero => simp [stepN]
  | succ n ih =>
      have h : n + 1 + b = (n + b) + 1 := by omega
      rw [h]
      show stepN (n + b) (stepT s) = _
      rw [ih (stepT s)]
      rfl

lemma stepN_congr (k : Nat) (s s2 : TimerState) (h : commitT s = commitT s2) :
    stepN (k + 1) s = stepN (k + 1) s2 := by
  show stepN k (stepT s) = stepN k (stepT s2)
  rw [stepT, stepT, h]

lemma tickRaw_dec (s : TimerState) (hi : s.intervalSet = true) (ht : 1 < s.timeLeft) :
    tickRaw s = { s with timeLeft := s.timeLeft - 1 } := by
  unfold tickRaw tickCb
  rw [if_neg (by simp [hi]), if_neg (by omega)]

lemma commitT_thinkingAt (cfg : Config) (t : Int) (evs : List TEvent) :
    commitT (thinkingAt cfg t evs) = thinkingAt cfg t evs := rfl

lemma commitT_respondingAt (cfg : Config) (t : Int) (evs : List TEvent) :
    commitT (respondingAt cfg t evs) = respondingAt cfg t evs := rfl

lemma stepT_thinkingAt_dec (cfg : Config) (t : Int) (evs : List TEvent) (ht : 1 < t) :
    stepT (thinkingAt cfg t evs) = thinkingAt cfg (t - 1) evs := by
  rw [stepT, commitT_thinkingAt, tickRaw_dec _ rfl ht]
  rfl

lemma stepT_respondingAt_dec (cfg : Config) (t : Int) (evs : List TEvent) (ht : 1 < t) :
    stepT (respondingAt cfg t evs) = respondingAt cfg (t - 1) evs := by
  rw [stepT, commitT_respondingAt, tickRaw_dec _ rfl ht]
  rfl

lemma stepN_thinkingAt_dec (cfg : Config) (k : Nat) :
    ∀ (t : Int) (evs : List TEvent), (k : Int) < t →
      stepN k (thinkingAt cfg t evs) = thinkingAt cfg (t - k) evs := by
  induction k with
  | zero => intro t evs _; simp [stepN]
  | succ n ih =>
      intro t evs h
      have h1 : 1 < t := by push_cast at h; omega
      show stepN n (stepT (thinkingAt cfg t evs)) = _
      rw [stepT_thinkingAt_dec cfg t evs h1, ih (t - 1) evs (by push_cast at h ⊢; omega)]
      congr 1
      push_cast
      ring

lemma stepN_respondingAt_dec (cfg : Config) (k : Nat) :
    ∀ (t : Int) (evs : List TEvent), (k : Int) < t →
      stepN k (respondingAt cfg t evs) = respondingAt cfg (t - k) evs := by
  induction k with
  | zero => intro t evs _; simp [stepN]
  | succ n ih =>
      intro t evs h
      have h1 : 1 < t := by push_cast at h; omega
      show stepN n (stepT (respondingAt cfg t evs)) = _
      rw [stepT_respondingAt_dec cfg t evs h1, ih (t - 1) evs (by push_cast at h ⊢; omega)]
      congr 1
      push_cast
      ring

lemma stepT_thinkingAt_one (cfg : Config) (evs : List TEvent) (hrt : 0 < cfg.responseTime) :
    stepT (thinkingAt cfg 1 evs) = respondingEntry cfg evs := by
  rw [stepT, commitT_thinkingAt]
  unfold tickRaw tickCb
  rw [if_neg (by simp [thinkingAt]), if_pos (by simp [thinkingAt]),
    if_pos (by simp [thinkingAt, cfgRT]; omega)]
  simp [thinkingAt, transitionPhaseCb, cfgRT, respondingEntry]

lemma stepT_respondingAt_one (cfg : Config) (evs : List TEvent) :
    stepT (respondingAt cfg 1 evs) = expiredEntry cfg evs := by
  rw [stepT, commitT_respondingAt]
  unfold tickRaw tickCb
  rw [if_neg (by simp [respondingAt]), if_pos (by simp [respondingAt]),
    if_neg (by simp [respondingAt]), if_pos (by simp [respondingAt])]
  simp [respondingAt, transitionPhaseCb, expiredEntry]

lemma stepN_thinkingAt_toR (cfg : Config) (evs : List TEvent) (hrt : 0 < cfg.responseTime) :
    ∀ (t : Nat), 0 < t → stepN t (thinkingAt cfg (t : Int) evs) = respondingEntry cfg evs := by
  intro t
  induction t with
  | zero => intro h; omega
  | succ n ih =>
      intro _
      by_cases hn : n = 0
      · subst hn
        show stepN 0 (stepT (thinkingAt cfg ((0 + 1 : Nat) : Int) evs)) = _
        rw [show ((0 + 1 : Nat) : Int) = 1 by norm_num]
        rw [stepT_thinkingAt_one cfg evs hrt]
        rfl
      · have hn' : 0 < n := Nat.pos_of_ne_zero hn
        show stepN n (stepT (thinkingAt cfg ((n + 1 : Nat) : Int) evs)) = _
        rw [stepT_thinkingAt_dec cfg _ evs (by push_cast; omega)]
        rw [show ((n + 1 : Nat) : Int) - 1 = (n : Int) by push_cast; ring]
        exact ih hn'

lemma stepN_respondingAt_toE (cfg : Config) (evs : List TEvent) :
    ∀ (t : Nat), 0 < t → stepN t (respondingAt cfg (t : Int) evs) = expiredEntry cfg evs := by
  intro t
  induction t with
  | zero => intro h; omega
  | succ n ih =>
      intro _
      by_cases hn : n = 0
      · subst hn
        show stepN 0 (stepT (respondingAt cfg ((0 + 1 : Nat) : Int) evs)) = _
        rw [show ((0 + 1 : Nat) : Int) = 1 by norm_num]
        rw [stepT_respondingAt_one cfg evs]
        rfl
      · have hn' : 0 < n := Nat.pos_of_ne_zero hn
        show stepN n (stepT (respondingAt cfg ((n + 1 : Nat) : Int) evs)) = _
        rw [stepT_respondingAt_dec cfg _ evs (by push_cast; omega)]
        rw [show ((n + 1 : Nat) : Int) - 1 = (n : Int) by push_cast; ring]
        exact ih hn'

lemma commitT_respondingEntry (cfg : Config) (evs : List TEvent) :
    commitT (respondingEntry cfg evs) =
      respondingAt cfg cfg.responseTime (evs ++ phaseEvents Phase.responding) := rfl

lemma stepT_expiredEntry (cfg : Config) (evs : List TEvent) :
    stepT (expiredEntry cfg evs) = expiredDone cfg evs := rfl

lemma stepT_expiredDone (cfg : Config) (evs : List TEvent) :
    stepT (expiredDone cfg evs) = expiredDone cfg evs := rfl

lemma stepN_expiredDone (cfg : Config) (evs : List TEvent) :
    ∀ (j : Nat), stepN j (expiredDone cfg evs) = expiredDone cfg evs := by
  intro j
  induction j with
  | zero => rfl
  | succ n ih =>
      show stepN n (stepT (expiredDone cfg evs)) = _
      rw [stepT_expiredDone]
      exact ih

lemma startTimer_eval_think (cfg : Config) (h : 0 < cfg.thinkTime) :
    startTimer cfg initTimer =
      { timeLeft := cfg.thinkTime
        phase := Phase.waiting
        pendingPhase := Phase.thinking
        isActive := true
        isProcessing := true
        intervalSet := true
        config := some cfg
        events := [TEvent.phaseChange Phase.thinking] } := by
  unfold startTimer
  rw [if_neg (fun hc => absurd hc.1 (by omega))]
  split
  · rfl
  · omega

lemma startTimer_eval_respond (cfg : Config) (h : cfg.thinkTime ≤ 0) (hrt : 0 < cfg.responseTime) :
    startTimer cfg initTimer =
      { timeLeft := cfg.responseTime
        phase := Phase.waiting
        pendingPhase := Phase.responding
        isActive := true
        isProcessing := true
        intervalSet := true
        config := some cfg
        events := phaseEvents Phase.responding } := by
  unfold startTimer
  rw [if_neg (fun hc => absurd hc.2 (by omega))]
  split
  · omega
  · rfl

/-- The notification log after the initial entry into thinking. -/
def thinkEvs : List TEvent :=
  [TEvent.phaseChange Phase.thinking]

lemma natRun_zero (M N : Nat) :
    natRun M N 0 = startTimer (cfgMN M N) initTimer := rfl

lemma commitT_natRun_start (M N : Nat) (hM : 0 < M) :
    commitT (startTimer (cfgMN M N) initTimer) =
      commitT (thinkingAt (cfgMN M N) (M : Int) thinkEvs) := by
  rw [startTimer_eval_think (cfgMN M N) (by simp [cfgMN]; omega)]
  rfl

lemma commitT_natRun_start_zero (N : Nat) (hN : 0 < N) :
    commitT (startTimer (cfgMN 0 N) initTimer) =
      commitT (respondingEntry (cfgMN 0 N) []) := by
  rw [startTimer_eval_respond (cfgMN 0 N) (by simp [cfgMN]) (by simp [cfgMN]; omega)]
  rfl

lemma natRun_to_thinkingAt (M N : Nat) (hM : 0 < M) (k : Nat) :
    natRun M N (k + 1) = stepN (k + 1) (thinkingAt (cfgMN M N) (M : Int) thinkEvs) := by
  unfold natRun
  exact stepN_congr k _ _ (commitT_natRun_start M N hM)

lemma natRun_think (M N : Nat) (hM : 0 < M) (_hN : 0 < N) (k : Nat) (hk1 : 0 < k) (hk : k < M) :
    natRun M N k = thinkingAt (cfgMN M N) ((M : Int) - k) thinkEvs := by
  obtain ⟨j, rfl⟩ : ∃ j, k = j + 1 := ⟨k - 1, by omega⟩
  rw [natRun_to_thinkingAt M N hM j]
  exact stepN_thinkingAt_dec (cfgMN M N) (j + 1) (M : Int) thinkEvs (by push_cast; omega)

lemma natRun_at_M (M N : Nat) (hM : 0 < M) (hN : 0 < N) :
    natRun M N M = respondingEntry (cfgMN M N) thinkEvs := by
  obtain ⟨j, hj⟩ : ∃ j, M = j + 1 := ⟨M - 1, by omega⟩
  rw [show natRun M N M = natRun M N (j + 1) by rw [hj]]
  rw [natRun_to_thinkingAt M N hM j, ← hj]
  exact stepN_thinkingAt_toR (cfgMN M N) thinkEvs (by simp [cfgMN]; omega) M hM

/-- The log after the transition into responding, for a positive think
time. -/
def respondEvs : List TEvent :=
  thinkEvs ++ phaseEvents Phase.responding

lemma natRun_to_respondingAt (M N : Nat) (hM : 0 < M) (hN : 0 < N) (i : Nat) :
    natRun M N (M + (i + 1)) =
      stepN (i + 1) (respondingAt (cfgMN M N) (N : Int) respondEvs) := by
  unfold natRun
  rw [stepN_add]
  rw [show stepN M (startTimer (cfgMN M N) initTimer) = natRun M N M from rfl]
  rw [natRun_at_M M N hM hN]
  exact stepN_congr i _ _ (by rw [commitT_respondingEntry]; rfl)

lemma natRun_respond (M N : Nat) (hM : 0 < M) (hN : 0 < N) (i : Nat) (hi1 : 0 < i) (hi : i < N) :
    natRun M N (M + i) = respondingAt (cfgMN M N) ((N : Int) - i) respondEvs := by
  obtain ⟨j, rfl⟩ : ∃ j, i = j + 1 := ⟨i - 1, by omega⟩
  rw [natRun_to_respondingAt M N hM hN j]
  exact stepN_respondingAt_dec (cfgMN M N) (j + 1) (N : Int) respondEvs (by push_cast; omega)

lemma natRun_at_MN (M N : Nat) (hM : 0 < M) (hN : 0 < N) :
    natRun M N (M + N) = expiredEntry (cfgMN M N) respondEvs := by
  obtain ⟨j, hj⟩ : ∃ j, N = j + 1 := ⟨N - 1, by omega⟩
  rw [show natRun M N (M + N) = natRun M N (M + (j + 1)) by rw [hj]]
  rw [natRun_to_respondingAt M N hM hN j, ← hj]
  exact stepN_respondingAt_toE (cfgMN M N) respondEvs N hN

lemma natRun_done (M N : Nat) (hM : 0 < M) (hN : 0 < N) (j : Nat) (hj : 0 < j) :
    natRun M N (M + N + j) = expiredDone (cfgMN M N) respondEvs := by
  obtain ⟨i, rfl⟩ : ∃ i, j = i + 1 := ⟨j - 1, by omega⟩
  unfold natRun
  rw [stepN_add]
  rw [show stepN (M + N) (startTimer (cfgMN M N) initTimer) = natRun M N (M + N) from rfl]
  rw [natRun_at_MN M N hM hN]
  show stepN i (stepT (expiredEntry (cfgMN M N) respondEvs)) = _
  rw [stepT_expiredEntry]
  exact stepN_expiredDone (cfgMN M N) respondEvs i

lemma natRun_zero_to_respondingAt (N : Nat) (hN : 0 < N) (i : Nat) :
    natRun 0 N (i + 1) = stepN (i + 1) (respondingAt (cfgMN 0 N) (N : Int) (phaseEvents Phase.responding)) := by
  unfold natRun
  have h1 := stepN_congr i (startTimer (cfgMN 0 N) initTimer)
    (respondingEntry (cfgMN 0 N) []) (commitT_natRun_start_zero N hN)
  rw [h1]
  exact stepN_congr i _ _ (by rw [commitT_respondingEntry]; rfl)

lemma natRun_zero_respond (N : Nat) (hN : 0 < N) (i : Nat) (hi1 : 0 < i) (hi : i < N) :
    natRun 0 N i = respondingAt (cfgMN 0 N) ((N : Int) - i) (phaseEvents Phase.responding) := by
  obtain ⟨j, rfl⟩ : ∃ j, i = j + 1 := ⟨i - 1, by omega⟩
  rw [natRun_zero_to_respondingAt N hN j]
  exact stepN_respondingAt_dec (cfgMN 0 N) (j + 1) (N : Int) _ (by push_cast; omega)

lemma natRun_zero_at_N (N : Nat) (hN : 0 < N) :
    natRun 0 N N = expiredEntry (cfgMN 0 N) (phaseEvents Phase.responding) := by
  obtain ⟨j, hj⟩ : ∃ j, N = j + 1 := ⟨N - 1, by omega⟩
  rw [show natRun 0 N N = natRun 0 N (j + 1) by rw [hj]]
  rw [natRun_zero_to_respondingAt N hN j, ← hj]
  exact stepN_respondingAt_toE (cfgMN 0 N) _ N hN

lemma natRun_zero_done (N : Nat) (hN : 0 < N) (j : Nat) (hj : 0 < j) :
    natRun 0 N (N + j) = expiredDone (cfgMN 0 N) (phaseEvents Phase.responding) := by
  obtain ⟨i, rfl⟩ : ∃ i, j = i + 1 := ⟨j - 1, by omega⟩
  unfold natRun
  rw [stepN_add]
  rw [show stepN N (startTimer (cfgMN 0 N) initTimer) = natRun 0 N N from rfl]
  rw [natRun_zero_at_N N hN]
  show stepN i (stepT (expiredEntry (cfgMN 0 N) _)) = _
  rw [stepT_expiredEntry]
  exact stepN_expiredDone (cfgMN 0 N) _ i

/-- One tick of a started timer in thinking when the stored responseTime
is not positive: neither transition branch applies, so the decremented
value, even below zero, simply becomes the new timeLeft. -/
lemma stepT_thinkingAt_stuck (cfg : Config) (t : Int) (evs : List TEvent)
    (hrt : cfg.responseTime ≤ 0) :
    stepT (thinkingAt cfg t evs) = thinkingAt cfg (t - 1) evs := by
  rw [stepT, commitT_thinkingAt]
  unfold tickRaw tickCb
  rw [if_neg (by simp [thinkingAt])]
  by_cases h : (thinkingAt cfg t evs).timeLeft - 1 ≤ 0
  · rw [if_pos h]
    rw [if_neg (fun hc => absurd hc.2 (by simp [cfgRT, thinkingAt]; omega))]
    rw [if_neg (by simp [thinkingAt])]
    rfl
  · rw [if_neg h]
    rfl

lemma stepN_thinkingAt_stuck (cfg : Config) (hrt : cfg.responseTime ≤ 0) (k : Nat) :
    ∀ (t : Int) (evs : List TEvent),
      stepN k (thinkingAt cfg t evs) = thinkingAt cfg (t - k) evs := by
  induction k with
  | zero => intro t evs; simp [stepN]
  | succ n ih =>
      intro t evs
      show stepN n (stepT (thinkingAt cfg t evs)) = _
      rw [stepT_thinkingAt_stuck cfg t evs hrt, ih (t - 1) evs]
      congr 1
      push_cast
      ring

/-- State after k ticks of a timer started with a natural think time and
an arbitrary integer response time. -/
def badRun (M : Nat) (rt : Int) (k : Nat) : TimerState :=
  stepN k (startTimer { thinkTime := (M : Int), responseTime := rt } initTimer)

/-- C3.  For every accepted configuration with responseTime = N > 0 and
thinkTime = M, the countdown decrements first and compares second: the
observed phase is thinking for the first M ticks, the tick number M
transitions to responding with the full response time N remaining, the
observed phase stays responding for the N following ticks, the tick
number M + N transitions to expired, onTimeExpired has not fired before
that tick and fires exactly once there, and the log stays that way on
every later tick. -/
theorem countdown_exact_ticks (M N : Nat) (hN : 0 < N) :
    (∀ k, k < M → (natRun M N k).pendingPhase = Phase.thinking) ∧
    ((natRun M N M).pendingPhase = Phase.responding ∧ (natRun M N M).timeLeft = (N : Int)) ∧
    (∀ k, M ≤ k → k < M + N → (natRun M N k).pendingPhase = Phase.responding) ∧
    (∀ k, k < M + N → countTE TEvent.timeExpired (natRun M N k).events = 0) ∧
    (∀ j, (natRun M N (M + N + j)).pendingPhase = Phase.expired ∧
      countTE TEvent.timeExpired (natRun M N (M + N + j)).events = 1) := by
  rcases Nat.eq_zero_or_pos M with hM | hM
  · subst hM
    have hev := startTimer_eval_respond (cfgMN 0 N) (by simp [cfgMN]) (by simp [cfgMN]; omega)
    refine ⟨?_, ?_, ?_, ?_, ?_⟩
    · intro k hk; omega
    · rw [natRun_zero, hev]; exact ⟨rfl, rfl⟩
    · intro k hk0 hkN
      rcases Nat.eq_zero_or_pos k with hk | hk
      · subst hk; rw [natRun_zero, hev]
      · rw [natRun_zero_respond N hN k hk (by omega)]; rfl
    · intro k hk
      rcases Nat.eq_zero_or_pos k with hk0 | hk0
      · subst hk0; rw [natRun_zero, hev]; rfl
      · rw [natRun_zero_respond N hN k hk0 (by omega)]; rfl
    · intro j
      rw [show 0 + N + j = N + j by omega]
      rcases Nat.eq_zero_or_pos j with hj | hj
      · subst hj; rw [show N + 0 = N by omega, natRun_zero_at_N N hN]; exact ⟨rfl, rfl⟩
      · rw [natRun_zero_done N hN j hj]; exact ⟨rfl, rfl⟩
  · have hev := startTimer_eval_think (cfgMN M N) (by simp [cfgMN]; omega)
    refine ⟨?_, ?_, ?_, ?_, ?_⟩
    · intro k hk
      rcases Nat.eq_zero_or_pos k with hk0 | hk0
      · subst hk0; rw [natRun_zero, hev]
      · rw [natRun_think M N hM hN k hk0 hk]; rfl
    · rw [natRun_at_M M N hM hN]; exact ⟨rfl, rfl⟩
    · intro k hk0 hkN
      rcases eq_or_lt_of_le hk0 with he | hlt
      · subst he; rw [natRun_at_M M N hM hN]; rfl
      · obtain ⟨i, rfl⟩ : ∃ i, k = M + i := ⟨k - M, by omega⟩
        rw [natRun_respond M N hM hN i (by omega) (by omega)]; rfl
    · intro k hk
      rcases Nat.eq_zero_or_pos k with hk0 | hk0
      · subst hk0; rw [natRun_zero, hev]; rfl
      · by_cases hkM : k < M
        · rw [natRun_think M N hM hN k hk0 hkM]; rfl
        · by_cases hkE : k = M
          · rw [hkE, natRun_at_M M N hM hN]; rfl
          · obtain ⟨i, rfl⟩ : ∃ i, k = M + i := ⟨k - M, by omega⟩
            rw [natRun_respond M N hM hN i (by omega) (by omega)]; rfl
    · intro j
      rcases Nat.eq_zero_or_pos j with hj | hj
      · subst hj; rw [show M + N + 0 = M + N by omega, natRun_at_MN M N hM hN]
        exact ⟨rfl, rfl⟩
      · rw [natRun_done M N hM hN j hj]; exact ⟨rfl, rfl⟩

/-- Witness for C3 at thinkTime 2 and responseTime 3: after the two
thinking ticks the phase is responding with 3 seconds remaining, and at
tick 5 the phase is expired with exactly one onTimeExpired. -/
theorem countdown_exact_ticks_witness :
    (0 < 3 ∧ (natRun 2 3 2).pendingPhase = Phase.responding) ∧
    (natRun 2 3 2).timeLeft = (3 : Int) ∧
    (natRun 2 3 5).pendingPhase = Phase.expired ∧
    countTE TEvent.timeExpired (natRun 2 3 5).events = 1 := by
  refine ⟨⟨by decide, ?_⟩, ?_, ?_, ?_⟩
  · exact (countdown_exact_ticks 2 3 (by decide)).2.1.1
  · exact (countdown_exact_ticks 2 3 (by decide)).2.1.2
  · exact ((countdown_exact_ticks 2 3 (by decide)).2.2.2.2 0).1
  · exact ((countdown_exact_ticks 2 3 (by decide)).2.2.2.2 0).2

/-- C10.  A configuration with a positive thinkTime and a nonpositive
responseTime is accepted by startTimer and enters thinking, but on every
subsequent tick the phase stays thinking, the remaining time keeps
decrementing below zero without bound, and the notification log never
grows beyond the initial entry into thinking: onPhaseChange for
responding and onTimeExpired are never emitted. -/
theorem thinking_forever_when_response_time_nonpos (M : Nat) (rt : Int)
    (hM : 0 < M) (hrt : rt ≤ 0) :
    ((startTimer { thinkTime := (M : Int), responseTime := rt } initTimer).pendingPhase =
        Phase.thinking ∧
      (startTimer { thinkTime := (M : Int), responseTime := rt } initTimer).events = thinkEvs) ∧
    ∀ k : Nat, (badRun M rt k).pendingPhase = Phase.thinking ∧
      (badRun M rt k).timeLeft = (M : Int) - k ∧
      (badRun M rt k).events = thinkEvs := by
  have hev := startTimer_eval_think { thinkTime := (M : Int), responseTime := rt }
    (by simp only []; exact_mod_cast hM)
  constructor
  · rw [hev]; exact ⟨rfl, rfl⟩
  · intro k
    cases k with
    | zero =>
        rw [show badRun M rt 0 = startTimer { thinkTime := (M : Int), responseTime := rt } initTimer
          from rfl, hev]
        refine ⟨rfl, by simp, rfl⟩
    | succ n =>
        have h1 : badRun M rt (n + 1) =
            stepN (n + 1)
              (thinkingAt { thinkTime := (M : Int), responseTime := rt } (M : Int) thinkEvs) := by
          unfold badRun
          exact stepN_congr n _ _ (by rw [hev]; rfl)
        rw [h1, stepN_thinkingAt_stuck _ hrt (n + 1) (M : Int) thinkEvs]
        exact ⟨rfl, rfl, rfl⟩

/-- Witness for C10 at thinkTime 5 and responseTime 0: the configuration
is accepted, and after 9 ticks the phase is still thinking with a
remaining time of minus four and no further notifications. -/
theorem thinking_forever_witness :
    ((0 : Nat) < 5 ∧ (0 : Int) ≤ 0) ∧
    (badRun 5 0 9).pendingPhase = Phase.thinking ∧
    (badRun 5 0 9).timeLeft = -4 ∧
    (badRun 5 0 9).events = thinkEvs := by
  refine ⟨⟨by decide, by decide⟩, ?_, ?_, ?_⟩
  · exact ((thinking_forever_when_response_time_nonpos 5 0 (by decide) (by decide)).2 9).1
  · have h := ((thinking_forever_when_response_time_nonpos 5 0 (by decide) (by decide)).2 9).2.1
    simpa using h
  · exact ((thinking_forever_when_response_time_nonpos 5 0 (by decide) (by decide)).2 9).2.2

/-- C4.  The configuration with thinkTime 5 and responseTime 0 has a
nonpositive responseTime, yet startTimer accepts it: the countdown is
started, a transition into thinking occurs and the onPhaseChange
notification fires.  The validation only rejects when thinkTime and
responseTime are both missing or nonpositive. -/
theorem startTimer_accepts_nonpositive_response_time :
    (startTimer { thinkTime := 5, responseTime := 0 } initTimer).pendingPhase = Phase.thinking ∧
    (startTimer { thinkTime := 5, responseTime := 0 } initTimer).intervalSet = true ∧
    (startTimer { thinkTime := 5, responseTime := 0 } initTimer).events =
      [TEvent.phaseChange Phase.thinking] ∧
    startTimer { thinkTime := 5, responseTime := 0 } initTimer ≠ initTimer := by decide

/-- Counterexample for C7: with the accepted configuration thinkTime 5,
responseTime 0, the committed started state has phase thinking, yet
skipThinking is a no-op there, because skipThinking also requires a
positive stored responseTime. -/
theorem skipThinking_noop_in_thinking_with_nonpos_response :
    (commitT (startTimer { thinkTime := 5, responseTime := 0 } initTimer)).phase =
      Phase.thinking ∧
    skipThinking (commitT (startTimer { thinkTime := 5, responseTime := 0 } initTimer)) =
      commitT (startTimer { thinkTime := 5, responseTime := 0 } initTimer) := by decide

/-- C7 (amended).  skipThinking transitions to responding with the full
configured responseTime remaining, and emits the responding
notifications, exactly when the phase is thinking, the stored
responseTime is positive and no transition is in progress; in every
other situation, which covers responding, expired, stopped, waiting, a
nonpositive responseTime and the in-progress guard window, it leaves the
state unchanged. -/
theorem skipThinking_characterization (s : TimerState) :
    (s.phase = Phase.thinking → 0 < cfgRT s → s.isProcessing = false →
      (skipThinking s).pendingPhase = Phase.responding ∧
      (skipThinking s).timeLeft = cfgRT s ∧
      (skipThinking s).events =
        s.events ++ [TEvent.phaseChange Phase.responding, TEvent.thinkingComplete]) ∧
    (¬ (s.phase = Phase.thinking ∧ 0 < cfgRT s ∧ s.isProcessing = false) →
      skipThinking s = s) := by
  constructor
  · intro h1 h2 h3
    unfold skipThinking
    rw [if_pos ⟨h1, h2⟩]
    unfold transitionPhase transitionPhaseCb
    rw [if_neg (by simp [h3])]
    exact ⟨rfl, rfl, rfl⟩
  · intro h
    unfold skipThinking
    by_cases hc : s.phase = Phase.thinking ∧ 0 < cfgRT s
    · rw [if_pos hc]
      unfold transitionPhase transitionPhaseCb
      have hp : s.isProcessing = true := by
        by_contra hp
        exact h ⟨hc.1, hc.2, by revert hp; cases s.isProcessing <;> simp⟩
      rw [if_pos hp]
    · rw [if_neg hc]

/-- Witness for C7: in a committed thinking state with responseTime 10,
skipThinking moves the pending phase to responding, while on the
uncommitted started state, whose phase still reads waiting and whose
in-progress flag is set, skipThinking changes nothing. -/
theorem skipThinking_characterization_witness :
    (skipThinking (commitT (startTimer { thinkTime := 5, responseTime := 10 } initTimer))).pendingPhase =
      Phase.responding ∧
    skipThinking (startTimer { thinkTime := 5, responseTime := 10 } initTimer) =
      startTimer { thinkTime := 5, responseTime := 10 } initTimer := by
  constructor
  · exact ((skipThinking_characterization _).1 (by decide) (by decide) (by decide)).1
  · exact (skipThinking_characterization _).2 (by decide)

lemma transitionPhase_flagged (tgt : Phase) (t : Int) (s : TimerState)
    (h : s.isProcessing = true) : transitionPhase tgt t s = s := by
  unfold transitionPhase transitionPhaseCb
  rw [if_pos h]

/-- C9 (amended).  A transition request arriving while the in-progress
flag is set is dropped, not queued, and the flag is set before the
callbacks of a transition run, so a callback that directly requests a
further transition is a no-op inside any transition.  The counterexample
shows the flag does not stay set across a callback that calls stopTimer,
because clearTimer resets it. -/
theorem transition_guard_drops_flagged_requests (s : TimerState) (tgt tgt2 : Phase)
    (t t2 : Int) (h : s.isProcessing = true) :
    transitionPhase tgt t s = s ∧
    ∀ s2 : TimerState,
      transitionPhaseCb (fun x => transitionPhase tgt2 t2 x) tgt t s2 =
        transitionPhaseCb (fun x => x) tgt t s2 := by
  constructor
  · exact transitionPhase_flagged tgt t s h
  · intro s2
    unfold transitionPhaseCb
    by_cases h2 : s2.isProcessing = true
    · rw [if_pos h2, if_pos h2]
    · rw [if_neg h2, if_neg h2]
      exact transitionPhase_flagged tgt2 t2 _ rfl

/-- Witness for C9: the freshly started timer still carries the set
in-progress flag, and a stopped-transition request against it is
dropped. -/
theorem transition_guard_drops_flagged_requests_witness :
    transitionPhase Phase.stopped 0 (startTimer { thinkTime := 5, responseTime := 10 } initTimer) =
      startTimer { thinkTime := 5, responseTime := 10 } initTimer := by
  exact (transition_guard_drops_flagged_requests _ Phase.stopped Phase.responding 0 10
    (by decide)).1

/-- Counterexample for C9: during the tick that expires a responding
countdown, a host onTimeExpired callback that reaches stopTimer is not
dropped: clearTimer resets the in-progress flag, the stale phase ref
still reads responding, and the nested transition to stopped executes,
leaving pending phase stopped and a stopped notification after the
expiry notifications. -/
theorem nested_stop_reenters_transition :
    (tickCb stopTimer (respondingAt { thinkTime := 5, responseTime := 10 } 1 [])).pendingPhase =
      Phase.stopped ∧
    (tickCb stopTimer (respondingAt { thinkTime := 5, responseTime := 10 } 1 [])).events =
      phaseEvents Phase.expired ++ [TEvent.phaseChange Phase.stopped] := by decide

/-- C1.  The submission gate does not deliver at most once.  First trace:
for one QuestionInstance whose responding countdown expires naturally
while recording, handleTimeExpiry runs twice, once as the timer
onTimeExpired callback and once from the phase effect observing the
committed expired phase; the second run finds the recorder already
stopped and submits at once, and the un-cancelled 500 ms timeout of the
first run then submits again, so onSubmit reaches the exam interface
twice.  Second part: both resulting submitResponseInternal closures
captured isProcessing as false, because setIsProcessing is not a
synchronous write, so both pass the guard and the external collaborator
is invoked twice. -/
theorem expiry_double_submission :
    (fireNextPendingSubmit
        (phaseEffect Phase.expired
          (handleTimeExpiry (phaseEffect Phase.responding (arInit 0))))).submissions.length = 2 ∧
    (submitResponseSync false (submitResponseSync false examInit)).submitCalls = 2 := by decide

/-- C2.  Counterexample trace for teardown safety: question 0 is
recording when the user submits, which schedules the 500 ms delayed
performSubmission; question 1 then arrives before the timeout fires, the
question-change effect resets the component and restarts the shared
timer, but the pending timeout is not cancelled; when it fires, the
continuation bound to question 0 invokes the submission collaborator
with the blob and id it captured and stops the freshly started timer of
question 1. -/
theorem stale_timeout_effect_after_question_change :
    ((questionChange (handleManualSubmit (phaseEffect Phase.responding (arInit 0))) 1).timerRunning =
        true ∧
      (questionChange (handleManualSubmit (phaseEffect Phase.responding (arInit 0))) 1).submissions =
        []) ∧
    (fireNextPendingSubmit
        (questionChange (handleManualSubmit (phaseEffect Phase.responding (arInit 0))) 1)).questionId =
      1 ∧
    (fireNextPendingSubmit
        (questionChange (handleManualSubmit (phaseEffect Phase.responding (arInit 0))) 1)).submissions =
      [(0, none)] ∧
    (fireNextPendingSubmit
        (questionChange (handleManualSubmit (phaseEffect Phase.responding (arInit 0))) 1)).timerRunning =
      false := by decide

/-- Counterexample for C5: after a failed delivery the isProcessing guard
is back to false, and a subsequent trigger for the same question passes
the guard and invokes the external collaborator a second time. -/
theorem failed_delivery_guard_cleared :
    (submitResponseFailure (submitResponseSync false examInit)).isProcessing = false ∧
    (submitResponseSync false (submitResponseFailure (submitResponseSync false examInit))).submitCalls =
      2 := by decide

/-- C5 (amended).  A failed delivery is caught inside
submitResponseInternal, which logs it without rejecting to its caller;
the question does not advance, and the finally block resets isProcessing
to false, so a subsequent trigger for the same QuestionInstance passes
the guard and invokes the external collaborator again: the core does
permit re-submission after a failed delivery. -/
theorem failed_delivery_allows_resubmission (s : ExamS) :
    (submitResponseFailure s).isProcessing = false ∧
    (submitResponseFailure s).questionAdvances = s.questionAdvances ∧
    (submitResponseSync false (submitResponseFailure s)).submitCalls = s.submitCalls + 1 := by
  exact ⟨rfl, rfl, rfl⟩

lemma performSubmissionWith_deviceStarts (qid : Nat) (captured : Option (List (List Nat)))
    (s : ARState) : (performSubmissionWith qid captured s).deviceStarts = s.deviceStarts := by
  unfold performSubmissionWith
  by_cases h : s.isPlaying <;> simp [h]

lemma handleTimeExpiry_deviceStarts (s : ARState) :
    (handleTimeExpiry s).deviceStarts = s.deviceStarts := by
  unfold handleTimeExpiry
  by_cases hr : s.recorderActive = some true
  · rw [if_pos hr]
  · rw [if_neg hr, performSubmissionWith_deviceStarts]

/-- C6.  When device acquisition fails, or when the recorder is no longer
live with an empty chunk buffer and no blob, the component still reaches
the submitting state at once and hands a null artifact to onSubmit, on
expiry as well as on manual submit: capture failure never blocks the
exam flow. -/
theorem capture_failure_still_submits_null (t : ARState)
    (h1 : t.recordingState ≠ RecState.recording) (h2 : t.chunks = []) (h3 : t.audioBlob = none) :
    ((handleTimeExpiry (startRecordingFail t)).submissions =
        t.submissions ++ [(t.questionId, none)] ∧
      (handleTimeExpiry (startRecordingFail t)).recordingState = RecState.submitting) ∧
    ∀ s : ARState, s.recorderActive ≠ some true → s.chunks = [] → s.audioBlob = none →
      (handleTimeExpiry s).submissions = s.submissions ++ [(s.questionId, none)] ∧
      (handleTimeExpiry s).recordingState = RecState.submitting ∧
      (handleManualSubmit s).submissions = s.submissions ++ [(s.questionId, none)] := by
  have key : ∀ s : ARState, s.recorderActive ≠ some true → s.chunks = [] → s.audioBlob = none →
      (handleTimeExpiry s).submissions = s.submissions ++ [(s.questionId, none)] ∧
      (handleTimeExpiry s).recordingState = RecState.submitting ∧
      (handleManualSubmit s).submissions = s.submissions ++ [(s.questionId, none)] := by
    intro s hr hc hb
    unfold handleTimeExpiry handleManualSubmit
    rw [if_neg hr]
    unfold performSubmissionWith
    by_cases hp : s.isPlaying <;> simp [hp, hb, hc]
  have hproj : (startRecordingFail t).recorderActive = none ∧
      (startRecordingFail t).chunks = t.chunks ∧
      (startRecordingFail t).audioBlob = t.audioBlob ∧
      (startRecordingFail t).submissions = t.submissions ∧
      (startRecordingFail t).questionId = t.questionId := by
    unfold startRecordingFail cleanupResources
    rw [if_neg h1]
    exact ⟨rfl, rfl, rfl, rfl, rfl⟩
  refine ⟨?_, key⟩
  obtain ⟨ha, hb2, _⟩ := key (startRecordingFail t)
    (by rw [hproj.1]; simp)
    (by rw [hproj.2.1]; exact h2)
    (by rw [hproj.2.2.1]; exact h3)
  constructor
  · rw [ha, hproj.2.2.2.1, hproj.2.2.2.2]
  · exact hb2

/-- Witness for C6: a freshly mounted component for question 7 whose
acquisition fails submits a null artifact on expiry. -/
theorem capture_failure_still_submits_null_witness :
    (handleTimeExpiry (startRecordingFail (arInit 7))).submissions = [(7, none)] ∧
    (handleTimeExpiry (startRecordingFail (arInit 7))).recordingState = RecState.submitting := by
  have h := capture_failure_still_submits_null (arInit 7) (by decide) (by decide) (by decide)
  exact ⟨by rw [h.1.1]; rfl, h.1.2⟩

/-- C8.  Over the full natural run of a question, the device is acquired
and started exactly once, at the entry into responding; the phase effect
on any phase other than responding never starts the device, in
particular never during thinking; and startRecording is a no-op while
already recording. -/
theorem recording_starts_once_per_question (M N q : Nat) (hN : 0 < N) :
    (coordRun M N q).deviceStarts = 1 ∧
    (∀ (s : ARState) (p : Phase), p ≠ Phase.responding →
      (phaseEffect p s).deviceStarts = s.deviceStarts) ∧
    (∀ s : ARState, s.recordingState = RecState.recording → startRecording s = s) := by
  refine ⟨?_, ?_, ?_⟩
  · unfold coordRun
    rcases Nat.eq_zero_or_pos M with hM | hM
    · subst hM
      rw [show (0 : Nat) + N = N by omega, natRun_zero_at_N N hN]
      rfl
    · rw [natRun_at_MN M N hM hN]
      rfl
  · intro s p hp
    unfold phaseEffect
    rw [if_neg (fun hc => hp hc.1)]
    by_cases hpe : p = Phase.expired
    · rw [if_pos hpe, handleTimeExpiry_deviceStarts]
    · rw [if_neg hpe]
  · intro s hs
    unfold startRecording
    rw [if_pos hs]

/-- Witness for C8 at thinkTime 1, responseTime 2, question 4: the run
starts the device exactly once, the thinking phase effect never starts
it, and startRecording on a recording state is a no-op. -/
theorem recording_starts_once_per_question_witness :
    (coordRun 1 2 4).deviceStarts = 1 ∧
    (phaseEffect Phase.thinking (arInit 4)).deviceStarts = (arInit 4).deviceStarts ∧
    startRecording (phaseEffect Phase.responding (arInit 4)) =
      phaseEffect Phase.responding (arInit 4) := by
  refine ⟨?_, ?_, ?_⟩
  · exact (recording_starts_once_per_question 1 2 4 (by decide)).1
  · exact (recording_starts_once_per_question 1 2 4 (by decide)).2.1 (arInit 4)
      Phase.thinking (by decide)
  · exact (recording_starts_once_per_question 1 2 4 (by decide)).2.2 _ (by decide)

